import Mathlib

/-!
Verification of the digitalTwin repository (a personal-finance dashboard UI)
against its natural-language specification.

The development shallowly embeds the pure computations of the two app files,
`src/digitalTwin.jsx` and `src/unnamed/part_000`:

* JS strings are modelled as `List Char`; the handful of string operations the
  code uses (`trim`, `split`, `join`, regex splitting) are defined below with
  JS semantics.
* JS numbers are modelled as `ℚ` (amounts, percentages) and `Int`
  (epoch-millisecond date values as produced by `new Date(...)`; the
  `YYYY-MM-DD` date strings of the app correspond monotonically and
  injectively to these values, and `now.setDate(now.getDate() - 30)` /
  `now.getTime() - 1000*60*60*24*30` are both modelled as subtracting
  30 days of milliseconds).
* Fallible remote calls (`fetch`) are modelled by an explicit outcome value
  fed to the embedded function; React state updates are modelled as explicit
  state-passing functions.
-/

namespace DigitalTwin

/-! ## Character/string utilities with JS semantics -/

/-- Whitespace characters recognised by JS `String.prototype.trim` that can
occur in the texts handled here. -/
def isWsChar (c : Char) : Bool :=
  c = ' ' || c = '\n' || c = '\t' || c = '\r'

/-- Sentence-final punctuation of the regexes `/(?<=[.!?])\s+/` and `/[.!?]$/`
in `shortenToMaxLines` (src/unnamed/part_000, lines 275 and 282). -/
def isSentencePunct (c : Char) : Bool :=
  c = '.' || c = '!' || c = '?'

/-- JS `String.prototype.trim`: drop leading and trailing whitespace. -/
def trimChars (l : List Char) : List Char :=
  ((l.dropWhile isWsChar).reverse.dropWhile isWsChar).reverse

/-- JS `String.prototype.split(sep)` for a single-character separator.
`"a\n\n\nb".split("\n") = ["a", "", "", "b"]`. -/
def splitOnChar (sep : Char) : List Char → List (List Char)
  | [] => [[]]
  | c :: rest =>
    let acc := splitOnChar sep rest
    if c = sep then [] :: acc
    else
      match acc with
      | [] => [[c]]
      | h :: t => (c :: h) :: t

/-- JS `text.replace(/\r\n/g, "\n")` (src/unnamed/part_000, line 270). -/
def replaceCRLF : List Char → List Char
  | [] => []
  | '\r' :: '\n' :: rest => '\n' :: replaceCRLF rest
  | c :: rest => c :: replaceCRLF rest

/-- JS `/[.!?]$/.test(current)`: the string ends with sentence punctuation. -/
def endsPunct (l : List Char) : Bool :=
  match l.getLast? with
  | some c => isSentencePunct c
  | none => false

/-- JS `normalized.split(/(?<=[.!?])\s+/)`: split at each maximal whitespace
run that immediately follows a `.`, `!` or `?`.
The separator being a maximal `\s+` run, the scan flag `skip` is true while
the run of a just-found separator is being consumed, `prev` is the
previously consumed character (the lookbehind), `acc` the current token
reversed. -/
def sentenceSplitAux (prev : Option Char) (skip : Bool) (acc : List Char) :
    List Char → List (List Char)
  | [] => [acc.reverse]
  | c :: rest =>
    if skip && isWsChar c then
      sentenceSplitAux (some c) true acc rest
    else if !skip && isWsChar c && (match prev with
                                    | some p => isSentencePunct p
                                    | none => false) then
      acc.reverse :: sentenceSplitAux (some c) true [] rest
    else
      sentenceSplitAux (some c) false (c :: acc) rest

def sentenceSplit (l : List Char) : List (List Char) :=
  sentenceSplitAux none false [] l

/-- The `lines` pipeline of `shortenToMaxLines` applied to the normalized
text: `normalized.split("\n").map(l => l.trim()).filter(Boolean)`
(src/unnamed/part_000, line 271). -/
def linesOf (normalized : List Char) : List (List Char) :=
  ((splitOnChar '\n' normalized).map trimChars).filter (fun l => !l.isEmpty)

/-- The sentence-aggregation loop of `shortenToMaxLines`
(src/unnamed/part_000, lines 276-287): fold the sentences into display
lines, pushing the accumulated `current` when it grows past 120 characters
or ends with sentence punctuation, and stopping once `maxLines` lines have
been produced.  Returns the produced lines and the leftover `current`. -/
def aggregateSentences (maxLines : Nat) :
    List (List Char) → List (List Char) → List Char →
    (List (List Char) × List Char)
  | [], res, cur => (res, cur)
  | s :: rest, res, cur =>
    let cur2 := if cur.isEmpty then trimChars s else cur ++ ' ' :: trimChars s
    if decide (120 < cur2.length) || endsPunct cur2 then
      let res2 := res ++ [cur2]
      if maxLines ≤ res2.length then (res2, [])
      else aggregateSentences maxLines rest res2 []
    else
      if maxLines ≤ res.length then (res, cur2)
      else aggregateSentences maxLines rest res cur2

/-- `shortenToMaxLines` (src/unnamed/part_000, lines 267-290): limit a text
to `maxLines` display lines, either by taking the first `maxLines` nonempty
trimmed lines, or (when there are fewer such lines) by re-aggregating the
text sentence by sentence. -/
def shortenToMaxLines (text : List Char) (maxLines : Nat) : List Char :=
  if text.isEmpty then text
  else
    let normalized := trimChars (replaceCRLF text)
    let lines := linesOf normalized
    if maxLines ≤ lines.length then
      List.intercalate ['\n'] (lines.take maxLines)
    else
      let sentences := sentenceSplit normalized
      let st := aggregateSentences maxLines sentences [] []
      let resultLines :=
        if decide (st.1.length < maxLines) && !st.2.isEmpty then
          st.1 ++ [st.2]
        else st.1
      List.intercalate ['\n'] (resultLines.take maxLines)

/-- `shortenToMaxLines` on `String`, as used by `callGeminiAPI` in
src/unnamed/part_000. -/
def shortenToMaxLinesStr (s : String) (maxLines : Nat) : String :=
  ⟨shortenToMaxLines s.data maxLines⟩

/-- The lines pipeline of the whole text (normalization included), for
stating properties of `shortenToMaxLines`. -/
def jsLines (text : List Char) : List (List Char) :=
  linesOf (trimChars (replaceCRLF text))

/-! ## Data model -/

/-- A transaction document: `{ id, amount, category, date, timestamp }`
(spec section 3; created in `handleSubmit` of both app files).  `amount` is
a JS number, modelled as `ℚ`; `date` is modelled by the epoch-millisecond
value `new Date(t.date).getTime()` of its `YYYY-MM-DD` string; `timestamp`
is the creation-instant ISO string, kept opaque. -/
structure Transaction where
  id : String
  amount : ℚ
  category : String
  date : Int
  timestamp : String
deriving DecidableEq

/-- The `transactionData` / `payload` object built on form submit: the four
non-id fields (src/digitalTwin.jsx lines 111-116, src/unnamed/part_000
line 236). -/
structure TxPayload where
  amount : ℚ
  category : String
  date : Int
  timestamp : String
deriving DecidableEq

/-! ## Risk classification -/

/-- Milliseconds in 30 days, `1000*60*60*24*30` (src/unnamed/part_000,
line 184). -/
def thirtyDayMs : Int := 1000 * 60 * 60 * 24 * 30

/-- The trailing 30-day window: `transactions.filter(t => new Date(t.date) >
thirtyAgo)` with `thirtyAgo = now - 30 days` (src/unnamed/part_000 line 185;
src/digitalTwin.jsx line 156, where `new Date(now.setDate(now.getDate() -
30))` is likewise modelled as subtracting 30 days of milliseconds). -/
def recentWindow (now : Int) (txs : List Transaction) : List Transaction :=
  txs.filter (fun t => now - thirtyDayMs < t.date)

/-- Spend in one category:
`recent.filter(t => t.category === c).reduce((s,t) => s + t.amount, 0)`
(src/unnamed/part_000 lines 187-188); the `reduce`-by-category object of
src/digitalTwin.jsx lines 158-161 yields the same per-category sums. -/
def catSum (txs : List Transaction) (c : String) : ℚ :=
  ((txs.filter (fun t => t.category = c)).map (fun t => t.amount)).sum

/-- Total spend over a transaction list:
`recent.reduce((s,t) => s + t.amount, 0)` (src/unnamed/part_000 line 186);
equals the sum over the category object of src/digitalTwin.jsx line 163. -/
def totalSum (txs : List Transaction) : ℚ :=
  (txs.map (fun t => t.amount)).sum

/-- `riskLabel` of src/unnamed/part_000, lines 182-194: the risky-spend
percentage of the trailing 30-day window put through the
`> 10 / > 5 / > 1` threshold ladder. -/
def riskLabel (now : Int) (txs : List Transaction) : String :=
  let recent := recentWindow now txs
  let total := totalSum recent
  let gambling := catSum recent "Gambling"
  let highRisk := catSum recent "High-Risk Investments"
  let pct : ℚ := if total = 0 then 0 else (gambling + highRisk) / total * 100
  if 10 < pct then "Extremely High Risk"
  else if 5 < pct then "High Risk"
  else if 1 < pct then "Moderate Risk"
  else "Low Risk"

/-- The risk percentage of src/unnamed/part_000, line 189: ratio of
Gambling plus High-Risk Investments spend to total spend over the trailing
30-day window, times 100 (0 when the total is 0). -/
def riskPct (now : Int) (txs : List Transaction) : ℚ :=
  let recent := recentWindow now txs
  let total := totalSum recent
  let gambling := catSum recent "Gambling"
  let highRisk := catSum recent "High-Risk Investments"
  if total = 0 then 0 else (gambling + highRisk) / total * 100

/-- The in-window Gambling plus High-Risk Investments spend (the numerator
of the risk percentage). -/
def riskySpend (now : Int) (txs : List Transaction) : ℚ :=
  catSum (recentWindow now txs) "Gambling" +
    catSum (recentWindow now txs) "High-Risk Investments"

/-- The in-window Wants + Subscriptions + Fun spend (`wantsSpending`,
src/digitalTwin.jsx line 170). -/
def wantsSpend (now : Int) (txs : List Transaction) : ℚ :=
  catSum (recentWindow now txs) "Wants" +
    catSum (recentWindow now txs) "Subscriptions" +
    catSum (recentWindow now txs) "Fun"

/-- Modelled from the spec sentence of claim C1: the pure four-tier
threshold lookup on the risk percentage
(`> 10 / > 5 / > 1 → Extremely High / High / Moderate / Low`). -/
def riskTier (pct : ℚ) : String :=
  if 10 < pct then "Extremely High Risk"
  else if 5 < pct then "High Risk"
  else if 1 < pct then "Moderate Risk"
  else "Low Risk"

/-- `getRiskLabel` of src/digitalTwin.jsx, lines 165-178, together with the
window/aggregation of lines 153-163 it closes over.  Unlike the part_000
variant it returns a fifth label on zero total spend and also escalates on
the `wantsPercentage` (Wants + Subscriptions + Fun).  The unused local
`funSpending` of line 167 is omitted. -/
def getRiskLabel (now : Int) (txs : List Transaction) : String :=
  let recentTransactions := recentWindow now txs
  let total := totalSum recentTransactions
  if total = 0 then "No Spending Data"
  else
    let gamblingSpending := catSum recentTransactions "Gambling"
    let highRiskSpending := catSum recentTransactions "High-Risk Investments"
    let wantsSpending := catSum recentTransactions "Wants" +
      catSum recentTransactions "Subscriptions" +
      catSum recentTransactions "Fun"
    let gamblingPercentage := (gamblingSpending + highRiskSpending) / total * 100
    let wantsPercentage := wantsSpending / total * 100
    if 10 < gamblingPercentage then "Extremely High Risk"
    else if 5 < gamblingPercentage ∨ 50 < wantsPercentage then "High Risk"
    else if 1 < gamblingPercentage ∨ 30 < wantsPercentage then "Moderate Risk"
    else "Low Risk"

/-! ## Transaction updates (claim C5) -/

/-- The local-state branch of `updateBackend` (src/unnamed/part_000,
line 217): `setTransactions(prev => prev.map(p => p.id === id ?
{ ...p, ...tx } : p))`, where `tx` is the submitted payload (amount,
category, date, timestamp; it carries no `id` field, so the spread keeps
`p.id`). -/
def updateBackend (id : String) (tx : TxPayload) (txs : List Transaction) :
    List Transaction :=
  txs.map (fun p =>
    if p.id = id then
      { p with amount := tx.amount, category := tx.category,
               date := tx.date, timestamp := tx.timestamp }
    else p)

/-! ## Chat model (claims C3, C4, C6, C9)

The remote call `fetch(apiUrl, ...)` is modelled by an explicit
`FetchOutcome` value: either the network layer throws, or an HTTP response
arrives with an `ok` flag and a parsed body.  Only the body fields the code
reads are modelled. -/

/-- One entry of `groundingMetadata.groundingAttributions`, projected to
`{ uri: attribution.web?.uri, title: attribution.web?.title }`; either field
may be absent. -/
structure Attribution where
  uri : Option String
  title : Option String
deriving DecidableEq

/-- The part of a response candidate the code reads:
`candidate.content?.parts?.[0]?.text` and
`candidate.groundingMetadata?.groundingAttributions`. -/
structure GeminiCandidate where
  text : Option String
  attributions : Option (List Attribution)
deriving DecidableEq

/-- Outcome of the `fetch` to the generative-language endpoint. -/
inductive FetchOutcome where
  | networkError : FetchOutcome
  | response (ok : Bool) (candidates : List GeminiCandidate) : FetchOutcome
deriving DecidableEq

/-- A failed chat API call: `fetch` threw, or the HTTP status was not ok
(in which case both app files `throw` into their own `catch`). -/
def FetchOutcome.isFailure : FetchOutcome → Prop
  | .networkError => True
  | .response ok _ => ok = false

/-- The `{ text, sources }` value returned by `callGeminiAPI`. -/
structure GeminiReply where
  text : String
  sources : List Attribution
deriving DecidableEq

/-- The fixed error string of the `catch` branch of `callGeminiAPI`
(src/digitalTwin.jsx line 248). -/
def connectionErrorText : String :=
  "There was an error connecting to the financial twin. Please try again."

/-- The no-candidate fallback text (src/digitalTwin.jsx line 245). -/
def noResponseText : String :=
  "I\x27m sorry, I couldn\x27t generate a response at this time."

/-- The fixed error string of the `catch` branch of `callGeminiAPI`
(src/unnamed/part_000 line 311). -/
def geminiErrorText : String :=
  "Error contacting Gemini. Please try again later."

/-- Keep an attribution as a cited source:
`.filter(source => source.uri && source.title)`
(src/digitalTwin.jsx line 241; an empty string is falsy in JS). -/
def goodAttribution (a : Attribution) : Bool :=
  match a.uri, a.title with
  | some u, some t => !u.isEmpty && !t.isEmpty
  | _, _ => false

/-- `callGeminiAPI` of src/digitalTwin.jsx, lines 222-249, as a function of
the fetch outcome (the request construction of lines 204-220 only builds
the payload and does not affect the returned value).  A non-ok status
throws into the `catch`; a missing candidate or missing/empty text (empty
strings are falsy in JS) yields the no-response fallback; otherwise the
text is returned verbatim with the filtered attributions. -/
def callGeminiAPI (o : FetchOutcome) : GeminiReply :=
  match o with
  | .networkError => { text := connectionErrorText, sources := [] }
  | .response ok candidates =>
    if !ok then { text := connectionErrorText, sources := [] }
    else
      match candidates.head? with
      | none => { text := noResponseText, sources := [] }
      | some cand =>
        match cand.text with
        | none => { text := noResponseText, sources := [] }
        | some t =>
          if t.isEmpty then { text := noResponseText, sources := [] }
          else
            let sources := match cand.attributions with
              | some attrs => attrs.filter goodAttribution
              | none => []
            { text := t, sources := sources }

/-- `callGeminiAPI` of src/unnamed/part_000, lines 292-313 (the
`GEMINI_API_KEY` constant of line 9 is nonempty, so the mock branch of
lines 293-296 is never taken).  `text || "No response"` treats a missing or
empty text as falsy; `.filter(Boolean)` on the mapped attribution objects
keeps every element, objects being truthy; every returned text passes
through `shortenToMaxLines(..., 3)`. -/
def callGeminiAPIp (o : FetchOutcome) : GeminiReply :=
  match o with
  | .networkError => { text := shortenToMaxLinesStr geminiErrorText 3, sources := [] }
  | .response ok candidates =>
    if !ok then { text := shortenToMaxLinesStr geminiErrorText 3, sources := [] }
    else
      let cand := candidates.head?
      let text := match cand.bind (fun c => c.text) with
        | some t => if t.isEmpty then "No response" else t
        | none => "No response"
      let sources := match cand.bind (fun c => c.attributions) with
        | some attrs => attrs
        | none => []
      { text := shortenToMaxLinesStr text 3, sources := sources }

/-- A chat transcript entry (spec section 3). -/
structure ChatMessage where
  role : String
  personaName : String
  text : String
  sources : List Attribution
deriving DecidableEq

/-- The chat-related component state. -/
structure ChatState where
  chatHistory : List ChatMessage
  chatInput : String
  isChatLoading : Bool
  selectedPersona : String
deriving DecidableEq

/-- The request a submit sends to the generative-language endpoint (used to
express that a blank submit makes no API call). -/
structure ApiRequest where
  prompt : String
  persona : String
deriving DecidableEq

/-- `handleChatSubmit` of src/digitalTwin.jsx, lines 252-264, as one state
transition: a blank (empty after `trim`) input returns immediately;
otherwise the user message and the bot message built from the API reply
are appended, the input is cleared and the loading flag ends false.  The
second component records the API request made, `none` when no call
happens. -/
def handleChatSubmit (s : ChatState) (o : FetchOutcome) :
    ChatState × Option ApiRequest :=
  if (trimChars s.chatInput.data).isEmpty then (s, none)
  else
    let userMessage : ChatMessage :=
      { role := "user", personaName := "You", text := s.chatInput, sources := [] }
    let botResponse := callGeminiAPI o
    let botMessage : ChatMessage :=
      { role := "bot", personaName := s.selectedPersona,
        text := botResponse.text, sources := botResponse.sources }
    ({ s with chatHistory := s.chatHistory ++ [userMessage, botMessage],
              chatInput := "", isChatLoading := false },
     some { prompt := s.chatInput, persona := s.selectedPersona })

/-- `sendChat` of src/unnamed/part_000, lines 315-330, as one state
transition on the question `q`: a falsy or blank question, or a pending
request, returns immediately; otherwise the user and bot messages are
appended. -/
def sendChat (s : ChatState) (q : String) (o : FetchOutcome) :
    ChatState × Option ApiRequest :=
  if q.isEmpty || (trimChars q.data).isEmpty || s.isChatLoading then (s, none)
  else
    let userMsg : ChatMessage :=
      { role := "user", personaName := "You", text := q, sources := [] }
    let bot := callGeminiAPIp o
    let botMsg : ChatMessage :=
      { role := "bot", personaName := s.selectedPersona,
        text := bot.text, sources := bot.sources }
    ({ s with chatHistory := s.chatHistory ++ [userMsg, botMsg],
              chatInput := "", isChatLoading := false },
     some { prompt := q, persona := s.selectedPersona })

/-- The operations that touch the chat state (claim C6): a full submit, the
bare bot-reply append `setChatHistory(prev => [...prev, botMessage])`, and
a persona switch `setSelectedPersona(p)`. -/
inductive ChatOp where
  | submit (o : FetchOutcome)
  | botReply (r : GeminiReply)
  | switchPersona (p : String)

/-- One step of the chat state machine. -/
def chatStep (op : ChatOp) (s : ChatState) : ChatState :=
  match op with
  | .submit o => (handleChatSubmit s o).1
  | .botReply r =>
    let botMessage : ChatMessage :=
      { role := "bot", personaName := s.selectedPersona,
        text := r.text, sources := r.sources }
    { s with chatHistory := s.chatHistory ++ [botMessage],
             isChatLoading := false }
  | .switchPersona p => { s with selectedPersona := p }

/-! ## Local-storage persistence (claim C8)

`localStorage` holds JSON-serialised values; `JSON.stringify`/`JSON.parse`
are the platform inverse pair, modelled here by keeping the parsed JSON
tree as the stored value: `encodeTx` is the shape `JSON.stringify` writes
for a transaction, `decodeTx` the shape the app reads back.  The store is
an association list keyed by string (latest write first). -/

inductive Json where
  | jnull : Json
  | jbool (b : Bool) : Json
  | jnum (q : ℚ) : Json
  | jstr (s : String) : Json
  | jarr (xs : List Json) : Json
  | jobj (fields : List (String × Json)) : Json

/-- `getLocalKey` (src/unnamed/part_000, line 15): the per-user key. -/
def getLocalKey (userId : String) : String :=
  "digital-twin:" ++ userId ++ ":transactions"

/-- Field lookup in a JSON object. -/
def jsonField (fields : List (String × Json)) (k : String) : Option Json :=
  (fields.find? (fun f => f.1 = k)).map (fun f => f.2)

/-- The JSON shape of one serialised transaction. -/
def encodeTx (t : Transaction) : Json :=
  .jobj [("id", .jstr t.id), ("amount", .jnum t.amount),
         ("category", .jstr t.category), ("date", .jnum (t.date : ℚ)),
         ("timestamp", .jstr t.timestamp)]

/-- Reading one transaction back from its JSON shape. -/
def decodeTx (j : Json) : Option Transaction :=
  match j with
  | .jobj fields =>
    match jsonField fields "id", jsonField fields "amount",
          jsonField fields "category", jsonField fields "date",
          jsonField fields "timestamp" with
    | some (.jstr id), some (.jnum amount), some (.jstr category),
      some (.jnum date), some (.jstr timestamp) =>
      if date.den = 1 then
        some { id := id, amount := amount, category := category,
               date := date.num, timestamp := timestamp }
      else none
    | _, _, _, _, _ => none
  | _ => none

/-- Reading the serialised array element by element. -/
def decodeTxArray : List Json → Option (List Transaction)
  | [] => some []
  | j :: rest =>
    match decodeTx j, decodeTxArray rest with
    | some t, some ts => some (t :: ts)
    | _, _ => none

/-- Reading a whole stored value: the single JSON-serialised array. -/
def decodeTxList (j : Json) : Option (List Transaction) :=
  match j with
  | .jarr xs => decodeTxArray xs
  | _ => none

/-- The local key-value store. -/
abbrev Store := List (String × Json)

/-- `localStorage.setItem`. -/
def setItem (st : Store) (k : String) (v : Json) : Store :=
  (k, v) :: st

/-- `localStorage.getItem`: `none` models a `null` result. -/
def getItem (st : Store) (k : String) : Option Json :=
  (List.find? (fun e => e.1 = k) st).map (fun e => e.2)

/-- The persist effect (src/unnamed/part_000, lines 151-155) in its
local-mode branch (no Firestore client): `if (userId)
localStorage.setItem(getLocalKey(userId), JSON.stringify(transactions))`;
an empty `userId` is falsy and writes nothing. -/
def persistLocal (st : Store) (userId : String) (txs : List Transaction) :
    Store :=
  if userId.isEmpty then st
  else setItem st (getLocalKey userId) (.jarr (txs.map encodeTx))

/-- `loadLocal` (src/unnamed/part_000, lines 128-134) as a function from
the store and the current transactions state to the next state: a falsy
`userId` or a missing raw value leaves the state unchanged; a stored value
is parsed (`setTransactions(JSON.parse(raw))`), the `catch` branch setting
`[]` on a value that does not decode as a transaction array. -/
def loadLocal (st : Store) (userId : String)
    (current : List Transaction) : List Transaction :=
  if userId.isEmpty then current
  else
    match getItem st (getLocalKey userId) with
    | none => current
    | some j =>
      match decodeTxList j with
      | some ts => ts
      | none => []

/-! ## Transaction history rendering (claim C10) -/

/-- The comparator `(a, b) => new Date(b.date) - new Date(a.date)`
(src/digitalTwin.jsx line 526, src/unnamed/part_000 line 395) orders `a`
before `b` when it is non-positive, i.e. when `b.date ≤ a.date`. -/
def dateDescLE (a b : Transaction) : Bool :=
  b.date ≤ a.date

/-- The rendered transaction rows: `[...transactions].sort(cmp)`.  JS
`Array.prototype.sort` is a stable sort, modelled by `List.mergeSort`; the
spread `[...transactions]` makes the in-place sort act on a copy, so the
function also returns the untouched `transactions` state as its second
component. -/
def renderHistoryRows (txs : List Transaction) :
    List Transaction × List Transaction :=
  (List.mergeSort txs dateDescLE, txs)

/-! ## Risk classification: claims C1 and C2 -/

/-- The part_000 risk label is exactly the threshold lookup applied to the
risk percentage. -/
theorem riskLabel_eq_tier (now : Int) (txs : List Transaction) :
    riskLabel now txs = riskTier (riskPct now txs) := rfl

/-- C1, counterexample: in src/digitalTwin.jsx the label is NOT a pure
function of the risk percentage and is NOT always one of the four tiers.
A single in-window transaction of 100 in category Wants has risk
percentage 0, whose threshold tier is Low Risk, yet `getRiskLabel` answers
High Risk (its `wantsPercentage > 50` escalation); and on an empty list
`getRiskLabel` answers the fifth label No Spending Data. -/
theorem getRiskLabel_not_threshold_cex :
    getRiskLabel 3000000000
        [{ id := "w1", amount := 100, category := "Wants",
           date := 2999999000, timestamp := "ts" }] = "High Risk" ∧
    riskPct 3000000000
        [{ id := "w1", amount := 100, category := "Wants",
           date := 2999999000, timestamp := "ts" }] = 0 ∧
    riskTier 0 = "Low Risk" ∧
    getRiskLabel 3000000000 [] = "No Spending Data" ∧
    ¬ ("No Spending Data" = "Low Risk" ∨ "No Spending Data" = "Moderate Risk" ∨
       "No Spending Data" = "High Risk" ∨ "No Spending Data" = "Extremely High Risk") := by
  refine ⟨?_, ?_, ?_, ?_, by decide⟩
  · simp +decide [getRiskLabel, recentWindow, totalSum, catSum, thirtyDayMs]
  · simp +decide [riskPct, recentWindow, totalSum, catSum, thirtyDayMs]
  · norm_num [riskTier]
  · simp [getRiskLabel, recentWindow, totalSum]

/-- C1 (amended): the claim as stated holds of the part_000 `riskLabel`:
it is the four-tier threshold lookup (percentage > 10 / > 5 / > 1) on the
risk percentage of the trailing 30-day window, always answers one of the
four labels and depends only on this percentage; the digitalTwin.jsx
`getRiskLabel`, by contrast, additionally escalates on the
Wants+Subscriptions+Fun percentage and answers a fifth label No Spending
Data when the window total is 0. -/
theorem riskLabel_is_threshold_lookup (now : Int) (txs : List Transaction) :
    riskLabel now txs = riskTier (riskPct now txs) ∧
    (riskLabel now txs = "Low Risk" ∨ riskLabel now txs = "Moderate Risk" ∨
     riskLabel now txs = "High Risk" ∨ riskLabel now txs = "Extremely High Risk") := by
  refine ⟨riskLabel_eq_tier now txs, ?_⟩
  rw [riskLabel_eq_tier]
  unfold riskTier
  split_ifs <;> simp

/-- C2, counterexample: in src/digitalTwin.jsx, a window with zero
Gambling + High-Risk Investments spend need not be labelled Low Risk: a
single in-window transaction of 200 in category Wants has risky spend 0
yet is labelled High Risk. -/
theorem zero_risky_spend_not_low_risk_cex :
    riskySpend 3000000000
        [{ id := "w2", amount := 200, category := "Wants",
           date := 2999998000, timestamp := "ts" }] = 0 ∧
    getRiskLabel 3000000000
        [{ id := "w2", amount := 200, category := "Wants",
           date := 2999998000, timestamp := "ts" }] = "High Risk" ∧
    "High Risk" ≠ "Low Risk" := by
  refine ⟨?_, ?_, by decide⟩
  · simp +decide [riskySpend, recentWindow, catSum, thirtyDayMs]
  · simp +decide [getRiskLabel, recentWindow, totalSum, catSum, thirtyDayMs]

/-- C2 (amended): when the trailing-window Gambling + High-Risk
Investments spend is 0, the part_000 `riskLabel` always answers Low Risk;
the digitalTwin.jsx `getRiskLabel` answers Low Risk provided additionally
the window total is nonzero and the Wants+Subscriptions+Fun percentage is
at most 30. -/
theorem zero_risky_spend_low_risk (now : Int) (txs : List Transaction)
    (h : riskySpend now txs = 0) :
    riskLabel now txs = "Low Risk" ∧
    (totalSum (recentWindow now txs) ≠ 0 →
      wantsSpend now txs / totalSum (recentWindow now txs) * 100 ≤ 30 →
      getRiskLabel now txs = "Low Risk") := by
  unfold riskySpend at h
  have hpct : riskPct now txs = 0 := by
    unfold riskPct
    simp only [h, zero_div, zero_mul, ite_self]
  constructor
  · rw [riskLabel_eq_tier, hpct]
    norm_num [riskTier]
  · intro h0 hw
    unfold getRiskLabel
    simp only [h0, if_false, h, zero_div, zero_mul]
    unfold wantsSpend at hw
    have h50 : ¬ (50 : ℚ) <
        (catSum (recentWindow now txs) "Wants" +
          catSum (recentWindow now txs) "Subscriptions" +
          catSum (recentWindow now txs) "Fun") /
          totalSum (recentWindow now txs) * 100 := by
      intro hc
      linarith
    have h30 : ¬ (30 : ℚ) <
        (catSum (recentWindow now txs) "Wants" +
          catSum (recentWindow now txs) "Subscriptions" +
          catSum (recentWindow now txs) "Fun") /
          totalSum (recentWindow now txs) * 100 := not_lt.mpr hw
    norm_num [h50, h30]

/-- C2 witness: a single in-window Food transaction of 50 has zero risky
spend, nonzero total and zero wants percentage, so both labels are
Low Risk. -/
theorem zero_risky_spend_low_risk_witness :
    riskLabel 3000000000
        [{ id := "f1", amount := 50, category := "Food",
           date := 2999999000, timestamp := "ts" }] = "Low Risk" ∧
    getRiskLabel 3000000000
        [{ id := "f1", amount := 50, category := "Food",
           date := 2999999000, timestamp := "ts" }] = "Low Risk" := by
  have h := zero_risky_spend_low_risk 3000000000
    [{ id := "f1", amount := 50, category := "Food",
       date := 2999999000, timestamp := "ts" }]
    (by simp +decide [riskySpend, recentWindow, catSum, thirtyDayMs])
  exact ⟨h.1,
    h.2 (by simp +decide [totalSum, recentWindow, thirtyDayMs])
        (by simp +decide [wantsSpend, totalSum, recentWindow, catSum, thirtyDayMs])⟩

/-! ## Transaction edit: claim C5 -/

/-- C5: submitting an edit of a transaction writes the new amount,
category, date and timestamp under the same id, and neither adds nor
removes a transaction: `updateBackend` preserves the id sequence (hence
also the length and the order), and every transaction whose id matches is
replaced by one carrying the same id and exactly the submitted fields. -/
theorem updateBackend_preserves_ids (id : String) (tx : TxPayload)
    (txs : List Transaction) :
    (updateBackend id tx txs).map Transaction.id = txs.map Transaction.id ∧
    (updateBackend id tx txs).length = txs.length ∧
    ∀ p ∈ txs, p.id = id →
      ({ id := p.id, amount := tx.amount, category := tx.category,
         date := tx.date, timestamp := tx.timestamp } : Transaction) ∈
        updateBackend id tx txs := by
  refine ⟨?_, ?_, ?_⟩
  · unfold updateBackend
    rw [List.map_map]
    apply List.map_congr_left
    intro a _
    dsimp only [Function.comp]
    split <;> rfl
  · unfold updateBackend
    exact List.length_map _ _
  · intro p hp hid
    unfold updateBackend
    have hm := List.mem_map_of_mem
      (f := fun p : Transaction =>
        if p.id = id then
          { p with amount := tx.amount, category := tx.category,
                   date := tx.date, timestamp := tx.timestamp }
        else p) hp
    simpa [hid] using hm

/-- C5 witness: editing the single transaction with id `a` leaves a list
whose member is the edited record under the same id. -/
theorem updateBackend_preserves_ids_witness :
    ({ id := "a", amount := 5, category := "Food", date := 0,
       timestamp := "t2" } : Transaction) ∈
      updateBackend "a"
        { amount := 5, category := "Food", date := 0, timestamp := "t2" }
        [{ id := "a", amount := 1, category := "Fun", date := 7,
           timestamp := "t1" }] :=
  (updateBackend_preserves_ids "a"
      { amount := 5, category := "Food", date := 0, timestamp := "t2" }
      [{ id := "a", amount := 1, category := "Fun", date := 7,
         timestamp := "t1" }]).2.2
    _ (List.mem_singleton.mpr rfl) rfl

/-! ## Chat history: claims C6, C9, C4 -/

/-- C6: the chat history is append-only: every operation on the chat state
(submitting a message, receiving a bot reply, switching persona) leaves
the previous history as a prefix of the new one. -/
theorem chat_history_append_only (op : ChatOp) (s : ChatState) :
    s.chatHistory <+: (chatStep op s).chatHistory := by
  cases op with
  | submit o =>
    unfold chatStep handleChatSubmit
    dsimp only
    split
    · exact List.prefix_rfl
    · exact List.prefix_append _ _
  | botReply r =>
    exact List.prefix_append _ _
  | switchPersona p =>
    exact List.prefix_rfl

/-- C9: submitting a chat message that is empty or whitespace-only is a
no-op: both `handleChatSubmit` and `sendChat` return the state unchanged
and make no API call. -/
theorem blank_chat_submit_noop (s : ChatState) (o : FetchOutcome)
    (h : (trimChars s.chatInput.data).isEmpty = true) :
    handleChatSubmit s o = (s, none) ∧
    ∀ q : String, (trimChars q.data).isEmpty = true →
      sendChat s q o = (s, none) := by
  constructor
  · unfold handleChatSubmit
    rw [if_pos h]
  · intro q hq
    unfold sendChat
    rw [if_pos (by simp [hq])]

/-- C9 witness: submitting the whitespace-only input of this state (and
the whitespace-only question) changes nothing and calls no API. -/
theorem blank_chat_submit_noop_witness :
    handleChatSubmit ⟨[], "   ", false, "Current You"⟩ .networkError =
      (⟨[], "   ", false, "Current You"⟩, none) ∧
    sendChat ⟨[], "   ", false, "Current You"⟩ " " .networkError =
      (⟨[], "   ", false, "Current You"⟩, none) := by
  have h := blank_chat_submit_noop ⟨[], "   ", false, "Current You"⟩
    .networkError (by decide)
  exact ⟨h.1, h.2 " " (by decide)⟩

/-- C4: a failed chat API call (network error, or non-ok HTTP status) does
not propagate: both embedded `callGeminiAPI` functions return their fixed
generic error string, and a chat submit with nonblank input still
completes, appending the user message and a bot message carrying that
error string. -/
theorem chat_api_failure_fixed_error (o : FetchOutcome) (s : ChatState)
    (hfail : o.isFailure)
    (hin : (trimChars s.chatInput.data).isEmpty = false) :
    (callGeminiAPI o).text = connectionErrorText ∧
    (callGeminiAPIp o).text = shortenToMaxLinesStr geminiErrorText 3 ∧
    (handleChatSubmit s o).1.chatHistory =
      s.chatHistory ++
        [{ role := "user", personaName := "You", text := s.chatInput,
           sources := [] },
         { role := "bot", personaName := s.selectedPersona,
           text := connectionErrorText, sources := [] }] := by
  have herr : callGeminiAPI o = { text := connectionErrorText, sources := [] } := by
    cases o with
    | networkError => rfl
    | response ok cands =>
      have hok : ok = false := hfail
      subst hok
      rfl
  refine ⟨by rw [herr], ?_, ?_⟩
  · cases o with
    | networkError => rfl
    | response ok cands =>
      have hok : ok = false := hfail
      subst hok
      rfl
  · unfold handleChatSubmit
    rw [if_neg (by simp [hin])]
    simp only [herr]

/-- C4 witness: a network error on a submit of the input `hi` appends the
user message and the fixed-error bot message. -/
theorem chat_api_failure_fixed_error_witness :
    (callGeminiAPI .networkError).text = connectionErrorText ∧
    (callGeminiAPIp .networkError).text =
      shortenToMaxLinesStr geminiErrorText 3 ∧
    (handleChatSubmit ⟨[], "hi", false, "Current You"⟩ .networkError).1.chatHistory =
      [] ++
        [{ role := "user", personaName := "You", text := "hi", sources := [] },
         { role := "bot", personaName := "Current You",
           text := connectionErrorText, sources := [] }] :=
  chat_api_failure_fixed_error .networkError
    ⟨[], "hi", false, "Current You"⟩ True.intro (by decide)

/-! ## Window membership: claim C7 -/

/-- C7: a transaction dated more than 30 days before the current instant is
outside the trailing window, so appending it changes neither risk label. -/
theorem old_transaction_irrelevant (now : Int) (txs : List Transaction)
    (t : Transaction) (h : t.date < now - thirtyDayMs) :
    riskLabel now (txs ++ [t]) = riskLabel now txs ∧
    getRiskLabel now (txs ++ [t]) = getRiskLabel now txs := by
  have hwin : recentWindow now (txs ++ [t]) = recentWindow now txs := by
    unfold recentWindow
    rw [List.filter_append]
    simp [List.filter, decide_eq_false (not_lt.mpr (le_of_lt h))]
  constructor
  · unfold riskLabel
    rw [hwin]
  · unfold getRiskLabel
    rw [hwin]

/-- C7 witness: appending a transaction dated far before the window to a
one-element list leaves both labels unchanged. -/
theorem old_transaction_irrelevant_witness :
    riskLabel 3000000000
        ([{ id := "f1", amount := 50, category := "Food",
            date := 2999999000, timestamp := "ts" }] ++
         [{ id := "o1", amount := 900, category := "Gambling",
            date := 1, timestamp := "ts" }]) =
      riskLabel 3000000000
        [{ id := "f1", amount := 50, category := "Food",
           date := 2999999000, timestamp := "ts" }] ∧
    getRiskLabel 3000000000
        ([{ id := "f1", amount := 50, category := "Food",
            date := 2999999000, timestamp := "ts" }] ++
         [{ id := "o1", amount := 900, category := "Gambling",
            date := 1, timestamp := "ts" }]) =
      getRiskLabel 3000000000
        [{ id := "f1", amount := 50, category := "Food",
           date := 2999999000, timestamp := "ts" }] :=
  old_transaction_irrelevant 3000000000
    [{ id := "f1", amount := 50, category := "Food",
       date := 2999999000, timestamp := "ts" }]
    { id := "o1", amount := 900, category := "Gambling",
      date := 1, timestamp := "ts" }
    (by decide)

/-! ## Local-storage round trip: claim C8 -/

/-- Decoding inverts encoding on a single transaction. -/
theorem decodeTx_encodeTx (t : Transaction) :
    decodeTx (encodeTx t) = some t := by
  simp +decide [decodeTx, encodeTx, jsonField, List.find?,
    Rat.den_intCast, Rat.num_intCast]

/-- Decoding inverts encoding on a serialised array. -/
theorem decodeTxArray_encode (txs : List Transaction) :
    decodeTxArray (txs.map encodeTx) = some txs := by
  induction txs with
  | nil => rfl
  | cons t ts ih => simp [decodeTxArray, decodeTx_encodeTx, ih]

/-- C8: local-storage persistence round-trips: persisting a transaction
list under the per-user key and loading it back for the same user yields
the same list. -/
theorem local_persistence_round_trip (st : Store) (userId : String)
    (txs cur : List Transaction) (h : userId.isEmpty = false) :
    loadLocal (persistLocal st userId txs) userId cur = txs := by
  unfold loadLocal persistLocal
  rw [if_neg (by simp [h]), if_neg (by simp [h])]
  have hget : getItem (setItem st (getLocalKey userId) (.jarr (txs.map encodeTx)))
      (getLocalKey userId) = some (.jarr (txs.map encodeTx)) := by
    unfold getItem setItem
    simp [List.find?]
  rw [hget]
  simp [decodeTxList, decodeTxArray_encode]

/-- C8 witness: a concrete one-transaction round trip through an empty
store. -/
theorem local_persistence_round_trip_witness :
    loadLocal
        (persistLocal []
          "u1"
          [{ id := "a", amount := 5, category := "Food", date := 3,
             timestamp := "t1" }])
        "u1" [] =
      [{ id := "a", amount := 5, category := "Food", date := 3,
         timestamp := "t1" }] :=
  local_persistence_round_trip [] "u1"
    [{ id := "a", amount := 5, category := "Food", date := 3,
       timestamp := "t1" }] [] (by decide)

/-! ## Transaction history render: claim C10 -/

/-- C10: the rendered transaction rows are the transactions in
non-increasing date order (a permutation of the list, sorted by the date
comparator), while the underlying transactions state — sorted only through
the spread copy — is returned unmodified. -/
theorem transaction_history_sorted (txs : List Transaction) :
    List.Pairwise (fun a b => b.date ≤ a.date) (renderHistoryRows txs).1 ∧
    List.Perm (renderHistoryRows txs).1 txs ∧
    (renderHistoryRows txs).2 = txs := by
  refine ⟨?_, List.mergeSort_perm txs _, rfl⟩
  have hs := @List.sorted_mergeSort Transaction dateDescLE
    (fun a b c hab hbc => by
      simp only [dateDescLE, decide_eq_true_eq] at *
      exact le_trans hbc hab)
    (fun a b => by
      simp only [dateDescLE, Bool.or_eq_true, decide_eq_true_eq]
      exact le_total b.date a.date)
    txs
  exact hs.imp (fun hab => by
    simpa only [dateDescLE, decide_eq_true_eq] using hab)

/-! ## Display-line truncation: claim C3 -/

/-- Splitting never produces an empty list of pieces. -/
theorem splitOnChar_ne_nil (sep : Char) (l : List Char) :
    splitOnChar sep l ≠ [] := by
  induction l with
  | nil => simp [splitOnChar]
  | cons c l ih =>
    simp only [splitOnChar]
    split
    · simp
    · split <;> simp

/-- No piece of a split contains the separator. -/
theorem not_mem_of_mem_splitOnChar (sep : Char) (l : List Char) :
    ∀ p ∈ splitOnChar sep l, sep ∉ p := by
  induction l with
  | nil =>
    intro p hp
    simp [splitOnChar] at hp
    subst hp
    simp
  | cons c l ih =>
    intro p hp
    simp only [splitOnChar] at hp
    by_cases hc : c = sep
    · rw [if_pos hc] at hp
      rcases List.mem_cons.mp hp with h | h
      · subst h; simp
      · exact ih p h
    · rw [if_neg hc] at hp
      rcases hacc : splitOnChar sep l with _ | ⟨h0, t0⟩
      · exact absurd hacc (splitOnChar_ne_nil sep l)
      · rw [hacc] at hp
        rcases List.mem_cons.mp hp with h | h
        · subst h
          intro hmem
          rcases List.mem_cons.mp hmem with h1 | h1
          · exact hc h1.symm
          · exact (ih h0 (by rw [hacc]; exact List.mem_cons_self _ _)) h1
        · exact ih p (by rw [hacc]; exact List.mem_cons_of_mem _ h)

/-- Trimming only removes characters. -/
theorem trimChars_subset (l : List Char) : trimChars l ⊆ l := by
  unfold trimChars
  intro x hx
  rw [List.mem_reverse] at hx
  have hx2 := (List.dropWhile_sublist isWsChar).subset hx
  rw [List.mem_reverse] at hx2
  exact (List.dropWhile_sublist isWsChar).subset hx2

/-- No display line of the lines pipeline contains a newline. -/
theorem not_newline_mem_linesOf (n : List Char) :
    ∀ x ∈ linesOf n, '\n' ∉ x := by
  intro x hx
  unfold linesOf at hx
  obtain ⟨hx1, -⟩ := List.mem_filter.mp hx
  obtain ⟨q, hq, rfl⟩ := List.mem_map.mp hx1
  intro hmem
  exact (not_mem_of_mem_splitOnChar '\n' n q hq) (trimChars_subset q hmem)

/-- Joining three newline-free pieces with a newline contains exactly two
newlines. -/
theorem count_newline_intercalate3 (a b c : List Char)
    (ha : '\n' ∉ a) (hb : '\n' ∉ b) (hc : '\n' ∉ c) :
    List.count '\n' (List.intercalate ['\n'] [a, b, c]) = 2 := by
  simp [List.intercalate, List.intersperse, List.count_append,
    List.count_eq_zero.mpr ha, List.count_eq_zero.mpr hb,
    List.count_eq_zero.mpr hc]

/-- C3, counterexample: a response text of fewer than 3 nonempty lines can
emerge from `shortenToMaxLines` with MORE than 2 newline separators: on
`Hi. There\nFriend. Yes. No.` (two nonempty lines) the sentence
re-aggregation keeps the embedded newline inside a sentence, producing a
display text with 3 newline separators (4 display lines).  Moreover the
digitalTwin.jsx `callGeminiAPI` applies no truncation at all: a 4-line
candidate text is displayed verbatim. -/
theorem shorten_exceeds_three_lines_cex :
    List.count '\n'
        (shortenToMaxLines ("Hi. There\nFriend. Yes. No.").data 3) = 3 ∧
    ¬ List.count '\n'
        (shortenToMaxLines ("Hi. There\nFriend. Yes. No.").data 3) ≤ 2 ∧
    (callGeminiAPI (.response true
        [{ text := some "a\nb\nc\nd", attributions := none }])).text =
      "a\nb\nc\nd" := by
  refine ⟨by decide, by decide, by decide⟩

/-- C3 (amended): the at-most-3-lines guarantee holds of
`shortenToMaxLines` whenever the response text has at least 3 nonempty
trimmed lines: the display text is then the first 3 of them and contains
exactly 2 newline separators.  A text with fewer nonempty lines can pass
through embedded newlines (see the counterexample), and the
digitalTwin.jsx variant does not truncate at all. -/
theorem shorten_keeps_three_lines (text : List Char)
    (h : 3 ≤ (jsLines text).length) :
    List.count '\n' (shortenToMaxLines text 3) = 2 := by
  have hne : text.isEmpty = false := by
    rcases text with _ | ⟨c, cs⟩
    · simp [jsLines, linesOf, trimChars, replaceCRLF, splitOnChar] at h
    · rfl
  unfold jsLines at h
  simp only [shortenToMaxLines, hne, Bool.false_eq_true, if_false]
  rw [if_pos h]
  rcases hl : linesOf (trimChars (replaceCRLF text)) with _ | ⟨a, _ | ⟨b, _ | ⟨c, rest⟩⟩⟩ <;>
    rw [hl] at h <;> try simp at h
  have ha : '\n' ∉ a :=
    not_newline_mem_linesOf _ a (by rw [hl]; exact List.mem_cons_self _ _)
  have hb : '\n' ∉ b :=
    not_newline_mem_linesOf _ b
      (by rw [hl]; exact List.mem_cons_of_mem _ (List.mem_cons_self _ _))
  have hc : '\n' ∉ c :=
    not_newline_mem_linesOf _ c
      (by rw [hl]; exact List.mem_cons_of_mem _ (List.mem_cons_of_mem _ (List.mem_cons_self _ _)))
  have htake : List.take 3 (a :: b :: c :: rest) = [a, b, c] := rfl
  rw [htake]
  exact count_newline_intercalate3 a b c ha hb hc

/-- C3 witness: a four-line response text keeps exactly its first three
lines. -/
theorem shorten_keeps_three_lines_witness :
    3 ≤ (jsLines ("l1\nl2\nl3\nl4").data).length ∧
    List.count '\n' (shortenToMaxLines ("l1\nl2\nl3\nl4").data 3) = 2 :=
  ⟨by decide, shorten_keeps_three_lines _ (by decide)⟩

end DigitalTwin
